import Mathlib

/-!
Shallow embedding of the Redex constant-propagation `Transform` header
(`service/constant-propagation/ConstantPropagationTransform.h`) and of the
class-merging grouping strategies (`service/class-merging/MergingStrategies.h`),
with theorems checking the natural-language specification against the code.

Machine integers (`size_t`, literals) are modelled as `Nat`/`Int`; none of the
embedded code paths overflow-wrap, so no modular reduction is needed.
Interned pointers (`DexType*`, `DexString*`, `DexMethod*`) are modelled as
handles, following the source's use of them as opaque interned identities.
-/

namespace ConstantPropagation

/-- Interned type handle standing for `const DexType*`. -/
abbrev DexType := Nat

/-- Interned string handle standing for `const DexString*`. -/
abbrev DexString := String

/-- Interned method handle standing for `DexMethod*`. -/
abbrev DexMethod := Nat

/-- The opcodes that `value_to_instruction_visitor` can emit. -/
inductive Opcode where
  | OPCODE_CONST
  | OPCODE_CONST_WIDE
  | OPCODE_CONST_STRING
  | OPCODE_CONST_CLASS
  | IOPCODE_MOVE_RESULT_PSEUDO_OBJECT
  deriving DecidableEq, Repr

/-- An emitted `IRInstruction`: the opcode it was constructed with plus the
fields the visitor sets (`set_literal`, `set_string`, `set_type`, `set_dest`).
Unset fields are `none`/`0`, distinguishing them from set ones. -/
structure IRInstruction where
  opcode : Opcode
  literal : Int := 0
  string : Option DexString := none
  ty : Option DexType := none
  dest : Option Nat := none
  deriving DecidableEq, Repr

/-- `new IRInstruction(op)`. -/
def IRInstruction.new (op : Opcode) : IRInstruction := { opcode := op }

/-- `insn->set_literal(l)`. -/
def IRInstruction.set_literal (insn : IRInstruction) (l : Int) : IRInstruction :=
  { insn with literal := l }

/-- `insn->set_string(s)`. -/
def IRInstruction.set_string (insn : IRInstruction) (s : DexString) : IRInstruction :=
  { insn with string := some s }

/-- `insn->set_type(t)`. -/
def IRInstruction.set_type (insn : IRInstruction) (t : DexType) : IRInstruction :=
  { insn with ty := some t }

/-- `insn->set_dest(d)`. -/
def IRInstruction.set_dest (insn : IRInstruction) (d : Nat) : IRInstruction :=
  { insn with dest := some d }

/-- The two fields of the original instruction that the visitor reads:
`m_original->dest()` and `m_original->dest_is_wide()`. -/
structure OriginalInstruction where
  dest : Nat
  dest_is_wide : Bool
  deriving DecidableEq, Repr

/-- `SignedConstantDomain`: the visitor only queries `get_constant()`,
which yields the singleton numeric constant when the domain is one. -/
structure SignedConstantDomain where
  get_constant : Option Int
  deriving DecidableEq, Repr

/-- `StringDomain`: `get_constant()` yields the singleton string constant. -/
structure StringDomain where
  get_constant : Option DexString
  deriving DecidableEq, Repr

/-- `ConstantClassObjectDomain`: `get_constant()` yields the singleton
class-reference constant. -/
structure ConstantClassObjectDomain where
  get_constant : Option DexType
  deriving DecidableEq, Repr

/-- The `ConstantValue` variant dispatched over by `boost::static_visitor`:
the three domains with dedicated `operator()` overloads, and `other` for
every further domain kind, which falls into the template catch-all. -/
inductive ConstantValue where
  | signed (dom : SignedConstantDomain)
  | str (dom : StringDomain)
  | cls (dom : ConstantClassObjectDomain)
  | other
  deriving DecidableEq, Repr

/-- `XStoreRefs`: the store-partition checker. The visitor only calls
`illegal_ref(declaring_type, type)`, which judges a (declaring type,
referenced type) pair; that is the whole interface it depends on. -/
structure XStoreRefs where
  illegal_ref : DexType → DexType → Bool

/-- `value_to_instruction_visitor`: one `operator()` per domain. The visitor
state is `m_original`, `m_xstores` (a possibly null pointer, hence `Option`)
and `m_declaring_type`; applying it to a `ConstantValue` returns the
`std::vector<IRInstruction*>` of emitted instructions. -/
def value_to_instruction_visitor (m_original : OriginalInstruction)
    (m_xstores : Option XStoreRefs) (m_declaring_type : DexType) :
    ConstantValue → List IRInstruction
  | .signed dom =>
    match dom.get_constant with
    | none => []
    | some cst =>
      [((IRInstruction.new
            (if m_original.dest_is_wide then .OPCODE_CONST_WIDE
             else .OPCODE_CONST)).set_literal
          cst).set_dest m_original.dest]
  | .str dom =>
    match dom.get_constant with
    | none => []
    | some cst =>
      [(IRInstruction.new .OPCODE_CONST_STRING).set_string cst,
       (IRInstruction.new .IOPCODE_MOVE_RESULT_PSEUDO_OBJECT).set_dest
         m_original.dest]
  | .cls dom =>
    match dom.get_constant with
    | none => []
    | some cst =>
      match m_xstores with
      | none => []
      | some xstores =>
        if xstores.illegal_ref m_declaring_type cst then []
        else
          [(IRInstruction.new .OPCODE_CONST_CLASS).set_type cst,
           (IRInstruction.new .IOPCODE_MOVE_RESULT_PSEUDO_OBJECT).set_dest
             m_original.dest]
  | .other => []

/-- `Transform::Config` with its in-class initializers; the null pointers
`class_under_init` and `getter_methods_for_immutable_fields` are `Option`s
that default to `none`. -/
structure Config where
  replace_moves_with_consts : Bool := true
  replace_move_result_with_consts : Bool := false
  remove_dead_switch : Bool := true
  class_under_init : Option DexType := none
  getter_methods_for_immutable_fields : Option (List DexMethod) := none
  deriving DecidableEq, Repr

/-- `Transform::Stats`: the seven counters, zero-initialized. -/
structure Stats where
  branches_removed : Nat := 0
  branches_forwarded : Nat := 0
  materialized_consts : Nat := 0
  added_param_const : Nat := 0
  throws : Nat := 0
  null_checks : Nat := 0
  null_checks_method_calls : Nat := 0
  deriving DecidableEq, Repr

/-- `Stats::operator+=`: pairwise addition of the seven counters (returning
the sum instead of mutating the left operand). -/
def Stats.add (s that : Stats) : Stats :=
  { branches_removed := s.branches_removed + that.branches_removed
    branches_forwarded := s.branches_forwarded + that.branches_forwarded
    materialized_consts := s.materialized_consts + that.materialized_consts
    added_param_const := s.added_param_const + that.added_param_const
    throws := s.throws + that.throws
    null_checks := s.null_checks + that.null_checks
    null_checks_method_calls :=
      s.null_checks_method_calls + that.null_checks_method_calls }

/-- Modelled from the spec: the body of `Transform::replace_with_const` is not
under `src/` (only its declaration is). Per the spec, the constant-substitution
rule computes the materializer's output for the abstract value at the
instruction and queues it as a replacement when the materializer emits
instructions, declining (`none`) when it emits none. -/
def replace_with_const_model (xstores : Option XStoreRefs)
    (declaring_type : DexType) (p : OriginalInstruction × ConstantValue) :
    Option (List IRInstruction) :=
  let out := value_to_instruction_visitor p.1 xstores declaring_type p.2
  if out.isEmpty then none else some out

/-- One step of the shared rule over one instruction paired with the abstract
value the analysis proves there: accumulate the queued replacement and count
it in `materialized_consts` when the rule fires, leave the accumulator
unchanged when the rule declines. -/
def shared_rule_step (xstores : Option XStoreRefs) (declaring_type : DexType)
    (acc : List (List IRInstruction) × Stats)
    (p : OriginalInstruction × ConstantValue) :
    List (List IRInstruction) × Stats :=
  match replace_with_const_model xstores declaring_type p with
  | none => acc
  | some out => (acc.1 ++ [out], Stats.add acc.2 { materialized_consts := 1 })

/-- Modelled from the spec: the body of `Transform::apply_on_uneditable_cfg`
is not under `src/` (only its declaration is). Per the spec it traverses the
flat (non-graph) instruction list once, applying the shared rewrite rules and
accumulating Stats; the shared constant-substitution rule is modelled here,
returning the queued replacements and the Stats contribution. -/
def apply_on_uneditable_cfg_model (xstores : Option XStoreRefs)
    (declaring_type : DexType)
    (code : List (OriginalInstruction × ConstantValue)) :
    List (List IRInstruction) × Stats :=
  code.foldl (shared_rule_step xstores declaring_type) ([], {})

/-- Modelled from the spec: the body of `Transform::apply` is not under
`src/` (only its declaration is). Per the spec it traverses the
graph-structured representation — the basic blocks in order, each block an
instruction sequence — applying the same shared rewrite rules and
accumulating Stats. -/
def apply_model (xstores : Option XStoreRefs) (declaring_type : DexType)
    (blocks : List (List (OriginalInstruction × ConstantValue))) :
    List (List IRInstruction) × Stats :=
  blocks.foldl
    (fun acc block => block.foldl (shared_rule_step xstores declaring_type) acc)
    ([], {})

/-- The members of `Transform`: the `const` configuration, the queued
changes, the stats, and the null-assertion set computed at construction.
(The queue of deletions and redundant move-results is part of the same
mutable change state; the replacement queue and stats stand for it here.) -/
structure Transform where
  m_config : Config
  m_replacements : List (List IRInstruction) := []
  m_stats : Stats := {}
  m_kotlin_null_check_assertions : List DexMethod := []

/-- The `Transform` constructor: stores the given config in `m_config` and
the externally computed Kotlin null-assertion set (the result of
`kotlin_nullcheck_wrapper::get_kotlin_null_assertions()`, passed in as a
parameter since it is external) in `m_kotlin_null_check_assertions`. -/
def Transform.construct (config : Config)
    (kotlin_null_assertions : List DexMethod) : Transform :=
  { m_config := config,
    m_kotlin_null_check_assertions := kotlin_null_assertions }

/-- One invocation of either entry point of a `Transform` instance, with the
inputs it is called with. -/
inductive TransformOp where
  | applyCfg (xstores : Option XStoreRefs) (declaring_type : DexType)
      (blocks : List (List (OriginalInstruction × ConstantValue)))
  | applyUneditable (xstores : Option XStoreRefs) (declaring_type : DexType)
      (code : List (OriginalInstruction × ConstantValue))

/-- Modelled from the spec: the bodies of `Transform::apply` and
`Transform::apply_on_uneditable_cfg` are not under `src/`. Each run queues
its edits and accumulates its stats in the instance's mutable members;
`m_config` is declared `const Config` in the source header, so no member
function writes it. -/
def Transform.run (t : Transform) : TransformOp → Transform
  | .applyCfg xstores declaring_type blocks =>
    let r := apply_model xstores declaring_type blocks
    { t with m_replacements := t.m_replacements ++ r.1,
             m_stats := Stats.add t.m_stats r.2 }
  | .applyUneditable xstores declaring_type code =>
    let r := apply_on_uneditable_cfg_model xstores declaring_type code
    { t with m_replacements := t.m_replacements ++ r.1,
             m_stats := Stats.add t.m_stats r.2 }

end ConstantPropagation

namespace ClassMerging

open ConstantPropagation (DexType)

/-- `max_instruction_size` in `group_by_code_size` and `group_by_refs`:
`1 << 15`. -/
def max_instruction_size : Nat := 1 <<< 15

/-- `max_applied_refs` in `group_by_refs`: 75. -/
def max_applied_refs : Nat := 75

/-- `std::numeric_limits<size_t>::max()`, the default when no maximum
mergeables count is configured. -/
def size_t_max : Nat := 2 ^ 64 - 1

/-- The loop of `group_by_cls_count`: while at least `max_mergeables_count`
types remain, emit a group of exactly `max_mergeables_count` of them; then
emit the remainder as a final group only when it has at least
`min_mergeables_count` types. Groups are returned in emission order instead
of being passed to the walker callback. -/
def group_by_cls_count_loop (max_mergeables_count : Nat)
    (hmax : 0 < max_mergeables_count) (min_mergeables_count : Nat)
    (l : List DexType) : List (List DexType) :=
  if _h : max_mergeables_count ≤ l.length then
    l.take max_mergeables_count ::
      group_by_cls_count_loop max_mergeables_count hmax min_mergeables_count
        (l.drop max_mergeables_count)
  else if min_mergeables_count ≤ l.length then [l] else []
termination_by l.length
decreasing_by simp only [List.length_drop]; omega

/-- `group_by_cls_count`. The `TypeSet` is modelled as its iteration-order
list of types. `redex_assert(min_mergeables_count <= max_mergeables_count &&
min_mergeables_count >= 2)` is modelled by returning `none` (the aborted run)
when the asserted condition fails. -/
def group_by_cls_count (mergeable_types : List DexType)
    (min_mergeables_count : Nat)
    (opt_max_mergeables_count : Option Nat) :
    Option (List (List DexType)) :=
  if h : min_mergeables_count ≤ opt_max_mergeables_count.getD size_t_max ∧
      2 ≤ min_mergeables_count then
    some (group_by_cls_count_loop (opt_max_mergeables_count.getD size_t_max)
      (by have hh := h; omega) min_mergeables_count mergeable_types)
  else none

/-- The per-type body of the `group_by_code_size` loop, acting on the state
(groups emitted so far, `current_group`, `estimated_merged_code_size`). The
external `estimate_vmethods_code_size(type_class(type))` is the parameter
`vmethods_code_size`. -/
def group_by_code_size_step (vmethods_code_size : DexType → Nat)
    (st : List (List DexType) × List DexType × Nat) (type : DexType) :
    List (List DexType) × List DexType × Nat :=
  if vmethods_code_size type > max_instruction_size then
    st
  else if st.2.2 + vmethods_code_size type > max_instruction_size then
    ((if st.2.1.length > 1 then st.1 ++ [st.2.1] else st.1),
      [type], vmethods_code_size type)
  else
    (st.1, st.2.1 ++ [type], st.2.2 + vmethods_code_size type)

/-- The trailing `if (current_group.size() > 1) walker(current_group);` that
closes both `group_by_code_size` and `group_by_refs`: emit the final
`current_group` only when it has more than one class. -/
def emit_final (st : List (List DexType) × List DexType × Nat) :
    List (List DexType) :=
  if st.2.1.length > 1 then st.1 ++ [st.2.1] else st.1

/-- `group_by_code_size`: fold the per-type step over the types, then emit
the final `current_group` only when it has more than one class. Groups are
returned in emission order instead of being passed to the walker callback. -/
def group_by_code_size (vmethods_code_size : DexType → Nat)
    (mergeable_types : List DexType) : List (List DexType) :=
  emit_final (mergeable_types.foldl
    (group_by_code_size_step vmethods_code_size) ([], [], 0))

/-- One iteration of the `group_by_refs` loop as seen from outside the
external `CrossDexRefMinimizer`: the class it yields (`worst()` or
`front()`), that class's `estimate_vmethods_code_size`, and the minimizer's
`get_applied_refs()` at that point. The minimizer's selection order and
reference accounting are external, so a run is modelled by the trace of
these observations; `erase` consumes each yielded class, so the trace is
finite and processed in order. -/
structure RefStep where
  cls : DexType
  vmethod_code_size : Nat
  applied_refs : Nat

/-- The per-iteration body of the `group_by_refs` loop, acting on the state
(groups emitted so far, `current_group`, `estimated_merged_code_size`). -/
def group_by_refs_step (st : List (List DexType) × List DexType × Nat)
    (step : RefStep) : List (List DexType) × List DexType × Nat :=
  if step.vmethod_code_size > max_instruction_size then
    st
  else if st.2.2 + step.vmethod_code_size > max_instruction_size ∨
      step.applied_refs > max_applied_refs then
    ((if st.2.1.length > 1 then st.1 ++ [st.2.1] else st.1),
      [step.cls], step.vmethod_code_size)
  else
    (st.1, st.2.1 ++ [step.cls], st.2.2 + step.vmethod_code_size)

/-- `group_by_refs` over the trace of minimizer observations: fold the
per-iteration step, then emit the final `current_group` only when it has
more than one class. Groups are returned in emission order instead of being
passed to the walker callback. -/
def group_by_refs (trace : List RefStep) : List (List DexType) :=
  emit_final (trace.foldl group_by_refs_step ([], [], 0))

end ClassMerging

namespace ConstantPropagation

/-- C2: a singleton numeric constant materializes to exactly one
constant-load instruction, wide iff the original destination is wide, with
the proven literal and the original destination; a singleton string constant
materializes to exactly a string-load followed by a result-move into the
original destination register. -/
theorem materializer_numeric_and_string_shape
    (orig : OriginalInstruction) (xstores : Option XStoreRefs)
    (declaring_type : DexType) :
    (∀ c : Int,
      value_to_instruction_visitor orig xstores declaring_type
          (.signed ⟨some c⟩) =
        [{ opcode := if orig.dest_is_wide then .OPCODE_CONST_WIDE
             else .OPCODE_CONST,
           literal := c, dest := some orig.dest }]) ∧
    (∀ s : DexString,
      value_to_instruction_visitor orig xstores declaring_type
          (.str ⟨some s⟩) =
        [{ opcode := .OPCODE_CONST_STRING, string := some s },
         { opcode := .IOPCODE_MOVE_RESULT_PSEUDO_OBJECT,
           dest := some orig.dest }]) :=
  ⟨fun _ => rfl, fun _ => rfl⟩

/-- C4: every non-singleton domain value — a numeric, string or class domain
with empty `get_constant`, or any other domain kind — materializes to the
empty instruction sequence. -/
theorem materializer_nonsingleton_abstains
    (orig : OriginalInstruction) (xstores : Option XStoreRefs)
    (declaring_type : DexType) :
    value_to_instruction_visitor orig xstores declaring_type
        (.signed ⟨none⟩) = [] ∧
    value_to_instruction_visitor orig xstores declaring_type
        (.str ⟨none⟩) = [] ∧
    value_to_instruction_visitor orig xstores declaring_type
        (.cls ⟨none⟩) = [] ∧
    value_to_instruction_visitor orig xstores declaring_type .other = [] :=
  ⟨rfl, rfl, rfl, rfl⟩

/-- C3: a singleton class-reference constant materializes to a class-load
followed by a result-move into the original destination when the supplied
store-partition checker accepts the (declaring type, referenced type) pair,
and to the empty instruction sequence when it rejects it. -/
theorem materializer_class_respects_checker
    (orig : OriginalInstruction) (xs : XStoreRefs)
    (declaring_type t : DexType) :
    value_to_instruction_visitor orig (some xs) declaring_type
        (.cls ⟨some t⟩) =
      if xs.illegal_ref declaring_type t then []
      else
        [(IRInstruction.new .OPCODE_CONST_CLASS).set_type t,
         (IRInstruction.new .IOPCODE_MOVE_RESULT_PSEUDO_OBJECT).set_dest
           orig.dest] :=
  rfl

/-- C9: with no store-partition checker supplied (null `XStoreRefs`
pointer), a singleton class-reference constant materializes to the empty
instruction sequence. -/
theorem materializer_null_checker_abstains
    (orig : OriginalInstruction) (declaring_type t : DexType) :
    value_to_instruction_visitor orig none declaring_type (.cls ⟨some t⟩) =
      [] :=
  rfl

/-- C1: every type referenced by an instruction the materializer emits is
one the store-partition checker does not mark illegal for the declaring
type (emitted string references carry no type and `illegal_ref` judges only
types, so no emitted reference is ever marked illegal); and whenever the
class reference would be illegal — the checker rejects it or is absent —
the materializer returns no instructions instead. -/
theorem materializer_partition_legality
    (orig : OriginalInstruction) (xstores : Option XStoreRefs)
    (declaring_type : DexType) (v : ConstantValue) :
    (∀ insn ∈ value_to_instruction_visitor orig xstores declaring_type v,
      ∀ t, insn.ty = some t →
        ∃ xs, xstores = some xs ∧
          xs.illegal_ref declaring_type t = false) ∧
    (∀ dom t, v = .cls dom → dom.get_constant = some t →
      (∀ xs, xstores = some xs → xs.illegal_ref declaring_type t = true) →
      value_to_instruction_visitor orig xstores declaring_type v = []) := by
  constructor
  · intro insn hmem t hty
    match v with
    | .signed dom =>
      match h : dom.get_constant with
      | none => simp [value_to_instruction_visitor, h] at hmem
      | some c =>
        simp [value_to_instruction_visitor, h] at hmem
        subst hmem
        simp [IRInstruction.new, IRInstruction.set_literal,
          IRInstruction.set_dest] at hty
    | .str dom =>
      match h : dom.get_constant with
      | none => simp [value_to_instruction_visitor, h] at hmem
      | some s =>
        simp [value_to_instruction_visitor, h] at hmem
        rcases hmem with hmem | hmem <;> subst hmem <;>
          simp [IRInstruction.new, IRInstruction.set_string,
            IRInstruction.set_dest] at hty
    | .cls dom =>
      match h : dom.get_constant with
      | none => simp [value_to_instruction_visitor, h] at hmem
      | some u =>
        match hx : xstores with
        | none => simp [value_to_instruction_visitor, h] at hmem
        | some xs =>
          by_cases hill : xs.illegal_ref declaring_type u
          · simp [value_to_instruction_visitor, h, hill] at hmem
          · simp [value_to_instruction_visitor, h, hill] at hmem
            rcases hmem with hmem | hmem <;> subst hmem <;>
              simp [IRInstruction.new, IRInstruction.set_type,
                IRInstruction.set_dest] at hty
            subst hty
            exact ⟨xs, rfl, by simpa using hill⟩
    | .other => simp [value_to_instruction_visitor] at hmem
  · intro dom t hv hcst hill
    subst hv
    match hx : xstores with
    | none => simp [value_to_instruction_visitor, hcst]
    | some xs =>
      have := hill xs rfl
      simp [value_to_instruction_visitor, hcst, this]

end ConstantPropagation

namespace ConstantPropagation

/-- C5: `Stats::operator+=` is pairwise addition of all seven counters, and
as a binary operation on `Stats` it is associative and commutative. -/
theorem stats_add_pairwise_assoc_comm :
    (∀ a b : Stats,
      (Stats.add a b).branches_removed =
          a.branches_removed + b.branches_removed ∧
      (Stats.add a b).branches_forwarded =
          a.branches_forwarded + b.branches_forwarded ∧
      (Stats.add a b).materialized_consts =
          a.materialized_consts + b.materialized_consts ∧
      (Stats.add a b).added_param_const =
          a.added_param_const + b.added_param_const ∧
      (Stats.add a b).throws = a.throws + b.throws ∧
      (Stats.add a b).null_checks = a.null_checks + b.null_checks ∧
      (Stats.add a b).null_checks_method_calls =
          a.null_checks_method_calls + b.null_checks_method_calls) ∧
    (∀ a b c : Stats, Stats.add (Stats.add a b) c =
        Stats.add a (Stats.add b c)) ∧
    (∀ a b : Stats, Stats.add a b = Stats.add b a) := by
  refine ⟨fun a b => ⟨rfl, rfl, rfl, rfl, rfl, rfl, rfl⟩, fun a b c => ?_,
    fun a b => ?_⟩
  · simp only [Stats.add, Stats.mk.injEq]
    omega
  · simp only [Stats.add, Stats.mk.injEq]
    omega

/-- C6: on the same method body — the graph entry point seeing it as basic
blocks, the legacy entry point seeing it as the flattened instruction list —
with the same analysis values, checker and declaring type, the two entry
points produce the same queued replacements (the shared rule fires at
exactly the same instructions with the same output) and equal Stats. -/
theorem apply_entry_points_agree (xstores : Option XStoreRefs)
    (declaring_type : DexType)
    (blocks : List (List (OriginalInstruction × ConstantValue))) :
    apply_model xstores declaring_type blocks =
      apply_on_uneditable_cfg_model xstores declaring_type blocks.flatten := by
  unfold apply_model apply_on_uneditable_cfg_model
  exact (List.foldl_flatten _ _ _).symm

/-- C8: the default-constructed `Transform::Config` enables
`replace_moves_with_consts` and `remove_dead_switch`, disables
`replace_move_result_with_consts`, and has null `class_under_init` and
`getter_methods_for_immutable_fields`. -/
theorem config_default_values :
    ({} : Config).replace_moves_with_consts = true ∧
    ({} : Config).replace_move_result_with_consts = false ∧
    ({} : Config).remove_dead_switch = true ∧
    ({} : Config).class_under_init = none ∧
    ({} : Config).getter_methods_for_immutable_fields = none :=
  ⟨rfl, rfl, rfl, rfl, rfl⟩

/-- Each entry-point invocation leaves `m_config` unchanged: the member is
declared `const Config` in the source, so the run only touches the queued
changes and the stats. -/
theorem run_preserves_m_config (t : Transform) (op : TransformOp) :
    (Transform.run t op).m_config = t.m_config := by
  cases op <;> rfl

/-- C7: after any sequence of entry-point invocations, a `Transform`
instance's `m_config` equals the config it was constructed with. -/
theorem transform_config_immutable (config : Config)
    (kotlin_null_assertions : List DexMethod) (ops : List TransformOp) :
    (ops.foldl Transform.run
        (Transform.construct config kotlin_null_assertions)).m_config =
      config := by
  suffices h : ∀ (t : Transform), (ops.foldl Transform.run t).m_config =
      t.m_config by
    exact h (Transform.construct config kotlin_null_assertions)
  induction ops with
  | nil => intro t; rfl
  | cons op rest ih =>
    intro t
    simpa [List.foldl_cons, run_preserves_m_config] using
      (ih (Transform.run t op)).trans (run_preserves_m_config t op)

end ConstantPropagation

namespace ClassMerging

open ConstantPropagation (DexType)

/-- Every group emitted by the `group_by_cls_count` loop is either a full
group of exactly `max_mergeables_count` types, or the final remainder group,
emitted only when it has at least `min_mergeables_count` types (and fewer
than `max_mergeables_count`). -/
theorem group_by_cls_count_loop_sizes (maxc : Nat) (hmax : 0 < maxc)
    (minc : Nat) (l : List DexType) :
    ∀ g ∈ group_by_cls_count_loop maxc hmax minc l,
      g.length = maxc ∨ (minc ≤ g.length ∧ g.length < maxc) := by
  intro g hg
  rw [group_by_cls_count_loop] at hg
  split at hg
  · rename_i h
    rcases List.mem_cons.mp hg with hg | hg
    · left
      subst hg
      simp [List.length_take, Nat.min_eq_left h]
    · exact group_by_cls_count_loop_sizes maxc hmax minc (l.drop maxc) g hg
  · rename_i h
    split at hg
    · rename_i hmin
      rcases List.mem_singleton.mp hg with rfl
      exact Or.inr ⟨hmin, by omega⟩
    · exact absurd hg (List.not_mem_nil g)
termination_by l.length
decreasing_by simp only [List.length_drop]; omega

/-- One `group_by_code_size` step preserves "every emitted group has more
than one class": the only group it can emit is `current_group`, guarded by
`current_group.size() > 1`. -/
theorem group_by_code_size_step_groups (sz : DexType → Nat)
    (st : List (List DexType) × List DexType × Nat) (type : DexType)
    (hst : ∀ g ∈ st.1, 1 < g.length) :
    ∀ g ∈ (group_by_code_size_step sz st type).1, 1 < g.length := by
  unfold group_by_code_size_step
  split
  · exact hst
  · split
    · split
      · rename_i hlen
        intro g hg
        rcases List.mem_append.mp hg with hg | hg
        · exact hst g hg
        · rcases List.mem_singleton.mp hg with rfl
          exact hlen
      · exact hst
    · exact hst

/-- Folding `group_by_code_size` steps preserves the emitted-group size
invariant. -/
theorem foldl_code_size_groups (sz : DexType → Nat) (types : List DexType)
    (st : List (List DexType) × List DexType × Nat)
    (hst : ∀ g ∈ st.1, 1 < g.length) :
    ∀ g ∈ (types.foldl (group_by_code_size_step sz) st).1, 1 < g.length := by
  induction types generalizing st with
  | nil => exact hst
  | cons t ts ih =>
    exact ih (group_by_code_size_step sz st t)
      (group_by_code_size_step_groups sz st t hst)

/-- One `group_by_refs` iteration preserves "every emitted group has more
than one class". -/
theorem group_by_refs_step_groups
    (st : List (List DexType) × List DexType × Nat) (step : RefStep)
    (hst : ∀ g ∈ st.1, 1 < g.length) :
    ∀ g ∈ (group_by_refs_step st step).1, 1 < g.length := by
  unfold group_by_refs_step
  split
  · exact hst
  · split
    · split
      · rename_i hlen
        intro g hg
        rcases List.mem_append.mp hg with hg | hg
        · exact hst g hg
        · rcases List.mem_singleton.mp hg with rfl
          exact hlen
      · exact hst
    · exact hst

/-- The final walker invocation emits `current_group` only under the
`current_group.size() > 1` guard, preserving the group-size invariant. -/
theorem emit_final_groups (st : List (List DexType) × List DexType × Nat)
    (hst : ∀ g ∈ st.1, 1 < g.length) :
    ∀ g ∈ emit_final st, 1 < g.length := by
  unfold emit_final
  split
  · rename_i hlen
    intro g hg
    rcases List.mem_append.mp hg with hg | hg
    · exact hst g hg
    · rcases List.mem_singleton.mp hg with rfl
      exact hlen
  · exact hst

/-- Folding `group_by_refs` iterations preserves the emitted-group size
invariant. -/
theorem foldl_refs_groups (trace : List RefStep)
    (st : List (List DexType) × List DexType × Nat)
    (hst : ∀ g ∈ st.1, 1 < g.length) :
    ∀ g ∈ (trace.foldl group_by_refs_step st).1, 1 < g.length := by
  induction trace generalizing st with
  | nil => exact hst
  | cons step rest ih =>
    exact ih (group_by_refs_step st step)
      (group_by_refs_step_groups st step hst)

/-- C10: every group any of the three merging strategies passes to the
walker has at least two types. `group_by_cls_count` (which asserts
`2 <= min_mergeables_count <= max_mergeables_count`, modelled by returning
`none` otherwise) emits only full groups of `max_mergeables_count` types
plus a final group of at least `min_mergeables_count` types, so each has at
least two; `group_by_code_size` and `group_by_refs` invoke the walker only
on groups with more than one class. -/
theorem grouping_strategies_min_group_size :
    (∀ (types : List DexType) (minc : Nat) (maxo : Option Nat)
        (groups : List (List DexType)),
      group_by_cls_count types minc maxo = some groups →
      ∀ g ∈ groups,
        2 ≤ g.length ∧
          (g.length = maxo.getD size_t_max ∨ minc ≤ g.length)) ∧
    (∀ (sz : DexType → Nat) (types : List DexType),
      ∀ g ∈ group_by_code_size sz types, 1 < g.length) ∧
    (∀ trace : List RefStep, ∀ g ∈ group_by_refs trace, 1 < g.length) := by
  refine ⟨?_, ?_, ?_⟩
  · intro types minc maxo groups hsome g hg
    unfold group_by_cls_count at hsome
    split at hsome
    · rename_i h
      injection hsome with h'
      subst h'
      rcases group_by_cls_count_loop_sizes _ _ minc types g hg with
        heq | ⟨hmin, _⟩
      · exact ⟨by omega, Or.inl heq⟩
      · exact ⟨by omega, Or.inr hmin⟩
    · exact Option.noConfusion hsome
  · intro sz types g hg
    exact emit_final_groups _
      (foldl_code_size_groups sz types ([], [], 0) (by simp)) g hg
  · intro trace g hg
    exact emit_final_groups _
      (foldl_refs_groups trace ([], [], 0) (by simp)) g hg

end ClassMerging

namespace ConstantPropagation

/-- A concrete store-partition checker that accepts every reference, used to
instantiate the partition-legality theorem. -/
def checker_allowing_all : XStoreRefs := ⟨fun _ _ => false⟩

/-- The partition-legality theorem instantiated at a concrete materializer
call: declaring type `0`, class constant `7`, a checker accepting every
reference, and the emitted class-load instruction. -/
theorem materializer_partition_legality_witness :
    ∃ xs, (some checker_allowing_all : Option XStoreRefs) = some xs ∧
      XStoreRefs.illegal_ref xs 0 7 = false :=
  (materializer_partition_legality ⟨3, false⟩ (some checker_allowing_all) 0
      (.cls ⟨some 7⟩)).1
    ((IRInstruction.new .OPCODE_CONST_CLASS).set_type 7)
    (by decide) 7 (by decide)

end ConstantPropagation

namespace ClassMerging

open ConstantPropagation (DexType)

/-- The group-size theorem instantiated at concrete inputs: four types with
`min = max = 2` for `group_by_cls_count`, and two-type runs of
`group_by_code_size` (unit code sizes) and `group_by_refs`. -/
theorem grouping_strategies_min_group_size_witness :
    (2 ≤ ([10, 11] : List DexType).length ∧
      (([10, 11] : List DexType).length = (some 2 : Option Nat).getD size_t_max ∨
        2 ≤ ([10, 11] : List DexType).length)) ∧
    (1 < ([20, 21] : List DexType).length) ∧
    (1 < ([30, 31] : List DexType).length) := by
  refine ⟨?_, ?_, ?_⟩
  · exact grouping_strategies_min_group_size.1 [10, 11, 12] 2 (some 2)
      [[10, 11]] (by simp [group_by_cls_count, group_by_cls_count_loop,
        size_t_max]) [10, 11] (by simp)
  · exact grouping_strategies_min_group_size.2.1 (fun _ => 1) [20, 21]
      [20, 21] (by simp [group_by_code_size, group_by_code_size_step,
        emit_final, max_instruction_size])
  · exact grouping_strategies_min_group_size.2.2 [⟨30, 1, 0⟩, ⟨31, 1, 0⟩]
      [30, 31] (by simp [group_by_refs, group_by_refs_step, emit_final,
        max_instruction_size, max_applied_refs])

end ClassMerging
